import Mathlib

/-!
# MMKV Python binding (`src/Python/libmmkv_python.cpp`)

A shallow embedding of the pybind11 glue layer of MMKV.

Conventions of the embedding.

* `std::string` and `MMKVPath_t` are `String`; `s.length()` is the number of
  bytes, `String.utf8ByteSize`, and `s.empty()` is `String.isEmpty`.  The one
  exception is `getString`: the strings it handles are raw byte sequences
  (`StdString`), because whether they are valid UTF-8 decides the outcome of the
  Python-level call.
* A possibly null pointer argument (`string *`, `MMKVPath_t *`) is an `Option`:
  `nullptr` is `none`, `&x` is `some x`.
* A `std::function` object is an `Option` of a function: the empty function
  (`nullptr`, Python `None`) is `none`, and `if (f)` tests `isSome`.
* Python callbacks are state transformers over a host world `W`, so a callback
  that "does nothing" is the identity on `W`.
* The three file-static handler slots form the record `Globals`.  Callbacks are
  assumed not to re-enter the binding, so they act on `W` only.
* The engine (`MMKV::...`, declared in `MMKV/MMKV.h`) is not part of this file:
  every engine entry point a lambda calls is a parameter of its embedding, with
  an arbitrary result type where the lambda only returns the result.  Engine
  entry points that may fire the trampolines take the current `Globals` (the
  memory the trampolines read) and an engine state `E`.
-/

namespace MMKVPython

/-! ## Enumerations exported by the module (lines 70-97) -/

/-- The enum `MMKVMode` (lines 70-74). -/
inductive MMKVMode where
  | MMKV_SINGLE_PROCESS
  | MMKV_MULTI_PROCESS
  | MMKV_READ_ONLY
  deriving DecidableEq, Repr

/-- The enum `MMKVLogLevel` (lines 76-82). -/
inductive MMKVLogLevel where
  | MMKVLogNone
  | MMKVLogDebug
  | MMKVLogInfo
  | MMKVLogWarning
  | MMKVLogError
  deriving DecidableEq, Repr

/-- The enum `MMKVRecoverStrategic` (lines 89-92). -/
inductive MMKVRecoverStrategic where
  | OnErrorDiscard
  | OnErrorRecover
  deriving DecidableEq, Repr

/-- The enum `MMKVErrorType` (lines 94-97). -/
inductive MMKVErrorType where
  | MMKVCRCCheckFail
  | MMKVFileLength
  deriving DecidableEq, Repr

/-- The path type `MMKVPath_t` (a `std::string` on POSIX builds). -/
abbrev MMKVPath_t := String

/-- One byte of a `py::bytes` object or of an `MMBuffer`. -/
abbrev Byte := Fin 256

/-! ## Callback types and the three handler slots (lines 44-65) -/

/-- A non-empty log callback: `(level, file, line, function, message) -> void`. -/
abbrev LogCallback (W : Type) :=
  MMKVLogLevel → String → Int → String → String → W → W

/-- A non-empty error callback: `(mmapID, errorType) -> MMKVRecoverStrategic`. -/
abbrev ErrorCallback (W : Type) :=
  String → MMKVErrorType → W → MMKVRecoverStrategic × W

/-- A non-empty content-change callback: `(mmapID) -> void`. -/
abbrev ContentCallback (W : Type) :=
  String → W → W

/-- The file-static `std::function` slots `g_logHandler`, `g_errorHandler` and
`g_contentHandler`; `none` is the empty function they are initialised with. -/
structure Globals (W : Type) where
  g_logHandler : Option (LogCallback W)
  g_errorHandler : Option (ErrorCallback W)
  g_contentHandler : Option (ContentCallback W)

/-- The initial value of the slots: all three are `nullptr`. -/
def Globals.initial (W : Type) : Globals W :=
  { g_logHandler := none, g_errorHandler := none, g_contentHandler := none }

/-- The trampoline `MyLogHandler` (lines 46-50). -/
def MyLogHandler {W : Type} (g : Globals W) (level : MMKVLogLevel) (file : String) (line : Int)
    (function : String) (message : String) (w : W) : W :=
  match g.g_logHandler with
  | some g_logHandler => g_logHandler level file line function message w
  | none => w

/-- The trampoline `MyErrorHandler` (lines 53-58). -/
def MyErrorHandler {W : Type} (g : Globals W) (mmapID : String) (errorType : MMKVErrorType)
    (w : W) : MMKVRecoverStrategic × W :=
  match g.g_errorHandler with
  | some g_errorHandler => g_errorHandler mmapID errorType w
  | none => (MMKVRecoverStrategic.OnErrorDiscard, w)

/-- The trampoline `MyContentChangeHandler` (lines 61-65). -/
def MyContentChangeHandler {W : Type} (g : Globals W) (mmapID : String) (w : W) : W :=
  match g.g_contentHandler with
  | some g_contentHandler => g_contentHandler mmapID w
  | none => w

/-- The type of the function pointer the engine receives for log redirection:
the trampoline reads the slots at the time it is called. -/
abbrev LogHandlerPtr (W : Type) :=
  Globals W → MMKVLogLevel → String → Int → String → String → W → W

/-- The type of the function pointer the engine receives for error handling. -/
abbrev ErrorHandlerPtr (W : Type) :=
  Globals W → String → MMKVErrorType → W → MMKVRecoverStrategic × W

/-- The type of the function pointer the engine receives for content changes. -/
abbrev ContentHandlerPtr (W : Type) :=
  Globals W → String → W → W

/-! ## Store acquisition (lines 139-152 and 169-175) -/

/-- The `py::init` factory of class `MMKV` (lines 139-144). -/
def init {R : Type}
    (MMKV_mmkvWithID : String → MMKVMode → Option String → Option MMKVPath_t → Nat → R)
    (mmapID : String) (mode : MMKVMode) (cryptKey : String) (rootDir : MMKVPath_t)
    (expectedCapacity : Nat) : R :=
  let cryptKeyPtr : Option String := if cryptKey.utf8ByteSize > 0 then some cryptKey else none
  let rootDirPtr : Option MMKVPath_t := if rootDir.utf8ByteSize > 0 then some rootDir else none
  MMKV_mmkvWithID mmapID mode cryptKeyPtr rootDirPtr expectedCapacity

/-- The static method `defaultMMKV` (lines 169-175). -/
def defaultMMKV {R : Type} (MMKV_defaultMMKV : MMKVMode → Option String → R)
    (mode : MMKVMode) (cryptKey : String) : R :=
  let cryptKeyPtr : Option String := if cryptKey.utf8ByteSize > 0 then some cryptKey else none
  MMKV_defaultMMKV mode cryptKeyPtr

/-! ## Process initialisation (lines 156-167) -/

/-- The static method `initializeMMKV` (lines 156-167): the slot is written
before the engine is entered, and only when a handler is supplied. -/
def initializeMMKV {W E : Type}
    (MMKV_initializeMMKV :
      MMKVPath_t → MMKVLogLevel → Option (LogHandlerPtr W) → Globals W → E → E)
    (rootDir : MMKVPath_t) (logLevel : MMKVLogLevel) (logHandler : Option (LogCallback W))
    (g : Globals W) (e : E) : Globals W × E :=
  if logHandler.isSome then
    let g1 : Globals W := { g with g_logHandler := logHandler }
    (g1, MMKV_initializeMMKV rootDir logLevel (some MyLogHandler) g1 e)
  else
    (g, MMKV_initializeMMKV rootDir logLevel none g e)

/-! ## Typed getters implemented in the binding (lines 255-275) -/

/-- The flag `MMBufferCopyFlag` of the engine's buffer constructor. -/
inductive MMBufferCopyFlag where
  | MMBufferCopy
  | MMBufferNoCopy
  deriving DecidableEq, Repr

/-- An engine buffer `MMBuffer`, as far as the binding looks at it: `getPtr()`
points at `ptr` (the memory found there), `length()` is `size`, and `isNoCopy`
tells whether the buffer only refers to memory it was given (`MMBufferNoCopy`)
or owns its memory (`MMBufferCopy`). -/
structure MMBuffer where
  isNoCopy : MMBufferCopyFlag
  ptr : List Byte
  size : Nat
  deriving DecidableEq, Repr

/-- The method `MMBuffer::getPtr`. -/
def MMBuffer.getPtr (b : MMBuffer) : List Byte := b.ptr

/-- The method `MMBuffer::length`. -/
def MMBuffer.length (b : MMBuffer) : Nat := b.size

/-- The constructor `py::bytes(const char *c, size_t n)`: the first `n` bytes at `c`. -/
def py_bytes (c : List Byte) (n : Nat) : List Byte := c.take n

/-- An engine buffer that owns exactly the byte sequence `v`. -/
def MMBuffer.ofBytes (v : List Byte) : MMBuffer :=
  { isNoCopy := MMBufferCopyFlag.MMBufferCopy, ptr := v, size := v.length }

/-- The bytes a buffer stands for: the first `length()` bytes at `getPtr()`. -/
def MMBuffer.contents (b : MMBuffer) : List Byte := b.getPtr.take b.length

/-- A `std::string` as the bytes it holds.  pybind11 loads a `std::string`
argument from a Python `str` (its UTF-8 encoding) or from a `bytes` object (its
bytes as they are), so every byte sequence can arrive. -/
abbrev StdString := List Byte

/-- The method `getString` (lines 255-264).  The engine method
`kv.getString(key, result)` gets the key and the initial contents of `result`
and yields its `bool` together with the final contents of `result`. -/
def getString {E : Type}
    (kv_getString : StdString → StdString → E → (Bool × StdString) × E)
    (key : StdString) (defaultValue : StdString) (e : E) : StdString × E :=
  let result : StdString := []
  let r := kv_getString key result e
  if r.1.1 then (r.1.2, r.2) else (defaultValue, r.2)

/-- A continuation byte of UTF-8, `10xxxxxx`. -/
def isContinuation (b : Byte) : Bool := decide (0x80 ≤ b.val) && decide (b.val < 0xC0)

/-- The character a byte sequence starts with, and the number of bytes that
encode it, under strict UTF-8: sequences of one to four bytes; a stray or
missing continuation byte, an overlong form, a surrogate and a code point above
U+10FFFF are all rejected. -/
def decodeFirst : StdString → Option (Char × Nat)
  | [] => none
  | b0 :: rest =>
    if b0.val < 0x80 then
      some (Char.ofNat b0.val, 1)
    else if b0.val < 0xC0 then
      none
    else if b0.val < 0xE0 then
      match rest with
      | b1 :: _ =>
        let r := (b0.val - 0xC0) * 64 + (b1.val - 0x80)
        if isContinuation b1 && decide (0x80 ≤ r) then some (Char.ofNat r, 2) else none
      | _ => none
    else if b0.val < 0xF0 then
      match rest with
      | b1 :: b2 :: _ =>
        let r := (b0.val - 0xE0) * 4096 + (b1.val - 0x80) * 64 + (b2.val - 0x80)
        if isContinuation b1 && isContinuation b2 && decide (0x800 ≤ r)
            && !(decide (0xD800 ≤ r) && decide (r ≤ 0xDFFF)) then
          some (Char.ofNat r, 3)
        else none
      | _ => none
    else if b0.val < 0xF8 then
      match rest with
      | b1 :: b2 :: b3 :: _ =>
        let r := (b0.val - 0xF0) * 262144 + (b1.val - 0x80) * 4096 + (b2.val - 0x80) * 64
          + (b3.val - 0x80)
        if isContinuation b1 && isContinuation b2 && isContinuation b3
            && decide (0x10000 ≤ r) && decide (r ≤ 0x10FFFF) then
          some (Char.ofNat r, 4)
        else none
      | _ => none
    else none

/-- Strict UTF-8 decoding from a position where `skip` bytes still belong to
the character decoded last: those are passed over, then the next character is
decoded at the front. -/
def decodeUTF8From : Nat → StdString → Option (List Char)
  | 0, [] => some []
  | _ + 1, [] => none
  | skip + 1, _ :: rest => decodeUTF8From skip rest
  | 0, b0 :: rest =>
    match decodeFirst (b0 :: rest) with
    | some (c, n) => (decodeUTF8From (n - 1) rest).map (fun cs => c :: cs)
    | none => none

/-- Strict UTF-8 decoding of a byte sequence into its characters. -/
def decodeUTF8Chars (s : StdString) : Option (List Char) := decodeUTF8From 0 s

/-- The CPython function `PyUnicode_DecodeUTF8` with strict error handling:
the Python `str` the bytes encode, or nothing when they are not valid UTF-8. -/
def PyUnicode_DecodeUTF8 (s : StdString) : Option String :=
  (decodeUTF8Chars s).map String.mk

/-- The Python exceptions a call of `getString` can end in. -/
inductive PyError where
  | UnicodeDecodeError
  deriving DecidableEq, Repr

/-- The outcome of a Python-level call that yields a `str`. -/
inductive PyResult where
  | returns (value : String)
  | raises (error : PyError)
  deriving DecidableEq, Repr

/-- The conversion pybind11 applies to a returned `std::string`: it decodes the
bytes as UTF-8 into a Python `str` and raises when that fails. -/
def string_caster_cast (src : StdString) : PyResult :=
  match PyUnicode_DecodeUTF8 src with
  | some value => PyResult.returns value
  | none => PyResult.raises PyError.UnicodeDecodeError

/-- The Python-level call of `getString` (lines 255-264): the default
`py::arg("defaultValue") = string()` stands in for an omitted argument, the
lambda runs, and the `std::string` it returns is converted to a Python `str`. -/
def getString_py {E : Type}
    (kv_getString : StdString → StdString → E → (Bool × StdString) × E)
    (key : StdString) (defaultValue : Option StdString) (e : E) : PyResult × E :=
  let r := getString kv_getString key (defaultValue.getD []) e
  (string_caster_cast r.1, r.2)

/-- The method `getBytes` (lines 266-275). -/
def getBytes {E : Type} (kv_getBytes : String → E → MMBuffer × E)
    (key : String) (defaultValue : List Byte) (e : E) : List Byte × E :=
  let r := kv_getBytes key e
  let result : MMBuffer := r.1
  if result.length > 0 then (py_bytes result.getPtr result.length, r.2) else (defaultValue, r.2)

/-! ## Handler registration (lines 314-386) -/

/-- The static method `registerLogHandler` (lines 314-319). -/
def registerLogHandler {W E : Type}
    (MMKV_registerLogHandler : LogHandlerPtr W → Globals W → E → E)
    (callback : Option (LogCallback W)) (g : Globals W) (e : E) : Globals W × E :=
  let g1 : Globals W := { g with g_logHandler := callback }
  (g1, MMKV_registerLogHandler MyLogHandler g1 e)

/-- The static method `unRegisterLogHandler` (lines 325-330). -/
def unRegisterLogHandler {W E : Type} (MMKV_unRegisterLogHandler : Globals W → E → E)
    (g : Globals W) (e : E) : Globals W × E :=
  let g1 : Globals W := { g with g_logHandler := none }
  (g1, MMKV_unRegisterLogHandler g1 e)

/-- The static method `registerErrorHandler` (lines 335-340). -/
def registerErrorHandler {W E : Type}
    (MMKV_registerErrorHandler : ErrorHandlerPtr W → Globals W → E → E)
    (callback : Option (ErrorCallback W)) (g : Globals W) (e : E) : Globals W × E :=
  let g1 : Globals W := { g with g_errorHandler := callback }
  (g1, MMKV_registerErrorHandler MyErrorHandler g1 e)

/-- The static method `unRegisterErrorHandler` (lines 346-351). -/
def unRegisterErrorHandler {W E : Type} (MMKV_unRegisterErrorHandler : Globals W → E → E)
    (g : Globals W) (e : E) : Globals W × E :=
  let g1 : Globals W := { g with g_errorHandler := none }
  (g1, MMKV_unRegisterErrorHandler g1 e)

/-- The static method `registerContentChangeHandler` (lines 357-362). -/
def registerContentChangeHandler {W E : Type}
    (MMKV_registerContentChangeHandler : ContentHandlerPtr W → Globals W → E → E)
    (callback : Option (ContentCallback W)) (g : Globals W) (e : E) : Globals W × E :=
  let g1 : Globals W := { g with g_contentHandler := callback }
  (g1, MMKV_registerContentChangeHandler MyContentChangeHandler g1 e)

/-- The static method `unRegisterContentChangeHandler` (lines 369-374). -/
def unRegisterContentChangeHandler {W E : Type}
    (MMKV_unRegisterContentChangeHandler : Globals W → E → E)
    (g : Globals W) (e : E) : Globals W × E :=
  let g1 : Globals W := { g with g_contentHandler := none }
  (g1, MMKV_unRegisterContentChangeHandler g1 e)

/-- The static method `onExit` (lines 378-385): the engine is shut down first,
with the slots as they are, and the three slots are emptied afterwards. -/
def onExit {W E : Type} (MMKV_onExit : Globals W → E → E) (g : Globals W) (e : E) :
    Globals W × E :=
  let e1 := MMKV_onExit g e
  let g1 : Globals W := { g with g_logHandler := none }
  let g2 : Globals W := { g1 with g_errorHandler := none }
  let g3 : Globals W := { g2 with g_contentHandler := none }
  (g3, e1)

/-! ## Backup, restore and file probes (lines 388-447) -/

/-- The static method `backupOneToDirectory` (lines 388-393). -/
def backupOneToDirectory {R : Type}
    (MMKV_backupOneToDirectory : String → MMKVPath_t → Option MMKVPath_t → R)
    (mmapID : String) (dstDir : MMKVPath_t) (srcDir : MMKVPath_t) : R :=
  let srcDirPtr : Option MMKVPath_t := if !srcDir.isEmpty then some srcDir else none
  MMKV_backupOneToDirectory mmapID dstDir srcDirPtr

/-- The static method `restoreOneFromDirectory` (lines 397-402). -/
def restoreOneFromDirectory {R : Type}
    (MMKV_restoreOneFromDirectory : String → MMKVPath_t → Option MMKVPath_t → R)
    (mmapID : String) (srcDir : MMKVPath_t) (dstDir : MMKVPath_t) : R :=
  let dstDirPtr : Option MMKVPath_t := if !dstDir.isEmpty then some dstDir else none
  MMKV_restoreOneFromDirectory mmapID srcDir dstDirPtr

/-- The static method `backupAllToDirectory` (lines 406-411). -/
def backupAllToDirectory {R : Type}
    (MMKV_backupAllToDirectory : MMKVPath_t → Option MMKVPath_t → R)
    (dstDir : MMKVPath_t) (srcDir : MMKVPath_t) : R :=
  let srcDirPtr : Option MMKVPath_t := if !srcDir.isEmpty then some srcDir else none
  MMKV_backupAllToDirectory dstDir srcDirPtr

/-- The static method `restoreAllFromDirectory` (lines 415-420). -/
def restoreAllFromDirectory {R : Type}
    (MMKV_restoreAllFromDirectory : MMKVPath_t → Option MMKVPath_t → R)
    (srcDir : MMKVPath_t) (dstDir : MMKVPath_t) : R :=
  let dstDirPtr : Option MMKVPath_t := if !dstDir.isEmpty then some dstDir else none
  MMKV_restoreAllFromDirectory srcDir dstDirPtr

/-- The static method `removeStorage` (lines 424-429). -/
def removeStorage {R : Type} (MMKV_removeStorage : String → Option MMKVPath_t → R)
    (mmapID : String) (rootDir : MMKVPath_t) : R :=
  let rootDirPtr : Option MMKVPath_t := if !rootDir.isEmpty then some rootDir else none
  MMKV_removeStorage mmapID rootDirPtr

/-- The static method `isFileValid` (lines 433-437). -/
def isFileValid {R : Type} (MMKV_isFileValid : String → Option MMKVPath_t → R)
    (mmapID : String) (rootDir : MMKVPath_t) : R :=
  let rootDirPtr : Option MMKVPath_t := if !rootDir.isEmpty then some rootDir else none
  MMKV_isFileValid mmapID rootDirPtr

/-- The static method `checkExist` (lines 441-445). -/
def checkExist {R : Type} (MMKV_checkExist : String → Option MMKVPath_t → R)
    (mmapID : String) (rootDir : MMKVPath_t) : R :=
  let rootDirPtr : Option MMKVPath_t := if !rootDir.isEmpty then some rootDir else none
  MMKV_checkExist mmapID rootDirPtr

/-- The absent-or-present view of a string argument: absent exactly when empty. -/
def optionalOf (s : String) : Option String := if s = "" then none else some s

/-! ## Concrete inputs used to evaluate the embedding -/

/-- An engine stub for `mmkvWithID` that reports the arguments it was called with. -/
def recordMmkvWithID (mmapID : String) (mode : MMKVMode) (cryptKey : Option String)
    (rootDir : Option MMKVPath_t) (expectedCapacity : Nat) :
    String × MMKVMode × Option String × Option MMKVPath_t × Nat :=
  (mmapID, mode, cryptKey, rootDir, expectedCapacity)

/-- An engine stub for `defaultMMKV` that reports the arguments it was called with. -/
def recordDefaultMMKV (mode : MMKVMode) (cryptKey : Option String) :
    MMKVMode × Option String :=
  (mode, cryptKey)

/-- An engine stub for `getBytes`: the store holds the byte sequence `v` under
every key, and the engine state counts the reads. -/
def holdsBytes (v : List Byte) (_key : String) (e : Nat) : MMBuffer × Nat :=
  (MMBuffer.ofBytes v, e + 1)

/-- An engine stub for `getBytes`: it yields the buffer `b` for every key, and
the engine state counts the reads. -/
def holdsBuffer (b : MMBuffer) (_key : String) (e : Nat) : MMBuffer × Nat :=
  (b, e + 1)

/-- An engine stub for `getString`: the store holds the bytes `v` under every
key, so the call reports success and leaves `v` in `result`. -/
def holdsString (v : StdString) (_key : StdString) (_result : StdString) (e : Nat) :
    (Bool × StdString) × Nat :=
  ((true, v), e + 1)

/-- An engine stub for `getString` on an empty store: the call reports failure
and leaves `result` as it was. -/
def missingString (_key : StdString) (result : StdString) (e : Nat) :
    (Bool × StdString) × Nat :=
  ((false, result), e + 1)

/-! ## Handle equality (line 154) -/

/-- The method `__eq__` (line 154).  The engine method `mmapID()` of the two
handles is a parameter. -/
def __eq__ {H : Type} (MMKV_mmapID : H → String) (kv : H) (other : H) : Bool :=
  MMKV_mmapID kv == MMKV_mmapID other

/-- Modelled from the spec: the engine class `MMKV` is declared in `MMKV/MMKV.h`;
a store is identified by a name plus a mode, an optional encryption key and a
root directory. -/
structure Store where
  name : String
  mode : MMKVMode
  cryptKey : Option String
  rootDir : MMKVPath_t
  deriving DecidableEq, Repr

/-- Modelled from the spec: the engine method `MMKV::mmapID` is declared in
`MMKV/MMKV.h`; it yields the name that identifies the store. -/
def Store.mmapID (s : Store) : String := s.name

/-! ## Bytes values (lines 35-42 and 231-239) -/

/-- What `PYBIND11_BYTES_AS_STRING_AND_SIZE(obj, &buffer, &length)` leaves
behind: its return code and the final values of `buffer` (the memory it points
at) and `length`. -/
structure AsStringAndSize where
  rc : Int
  buffer : List Byte
  length : Int
  deriving DecidableEq, Repr

/-- The conversion `static_cast<size_t>(length)` of an `ssize_t`, for a 64-bit
`size_t`. -/
def static_cast_size_t (length : Int) : Nat := (length % 2 ^ 64).toNat

/-- The constructor `MMBuffer(void *source, size_t length, MMBufferCopyFlag flag)`.
With `MMBufferNoCopy` the buffer points at `source` itself, so `getPtr()` finds
the memory that is there; with `MMBufferCopy` it owns fresh memory holding a
copy of the first `length` bytes. -/
def MMBuffer.ctor (source : List Byte) (length : Nat) (flag : MMBufferCopyFlag) : MMBuffer :=
  match flag with
  | MMBufferCopyFlag.MMBufferCopy =>
    { isNoCopy := MMBufferCopyFlag.MMBufferCopy, ptr := source.take length, size := length }
  | MMBufferCopyFlag.MMBufferNoCopy =>
    { isNoCopy := MMBufferCopyFlag.MMBufferNoCopy, ptr := source, size := length }

/-- The value `MMBuffer(0)`: a buffer of length 0 that owns no memory. -/
def MMBuffer.zero : MMBuffer :=
  { isNoCopy := MMBufferCopyFlag.MMBufferCopy, ptr := [], size := 0 }

/-- The helper `pyBytes2MMBuffer` (lines 35-42).  The pybind11 macro is a
parameter: it gets the object and the initial values of `buffer` and `length`. -/
def pyBytes2MMBuffer {P : Type}
    (PYBIND11_BYTES_AS_STRING_AND_SIZE : P → List Byte → Int → AsStringAndSize)
    (bytes : P) : MMBuffer :=
  let buffer : List Byte := []
  let length : Int := 0
  let r := PYBIND11_BYTES_AS_STRING_AND_SIZE bytes buffer length
  if r.rc = 0 then
    MMBuffer.ctor r.buffer (static_cast_size_t r.length) MMBufferCopyFlag.MMBufferNoCopy
  else
    MMBuffer.zero

/-- The bytes overload of `set` (lines 231-233). -/
def set_bytes {P R : Type}
    (PYBIND11_BYTES_AS_STRING_AND_SIZE : P → List Byte → Int → AsStringAndSize)
    (kv_set : MMBuffer → String → R) (value : P) (key : String) : R :=
  kv_set (pyBytes2MMBuffer PYBIND11_BYTES_AS_STRING_AND_SIZE value) key

/-- The bytes overload of `set` with expiration (lines 234-239). -/
def set_bytes_expire {P R : Type}
    (PYBIND11_BYTES_AS_STRING_AND_SIZE : P → List Byte → Int → AsStringAndSize)
    (kv_set : MMBuffer → String → Nat → R) (value : P) (key : String)
    (expireDuration : Nat) : R :=
  kv_set (pyBytes2MMBuffer PYBIND11_BYTES_AS_STRING_AND_SIZE value) key expireDuration

/-! ## More concrete inputs -/

/-- A log callback that appends the arguments it is called with to a journal. -/
def journalLog : LogCallback (List (MMKVLogLevel × String × Int × String × String)) :=
  fun level file line function message w => w ++ [(level, file, line, function, message)]

/-- A content-change callback that appends the store name to a journal. -/
def journalContent : ContentCallback (List String) :=
  fun mmapID w => w ++ [mmapID]

/-- The macro on a genuine bytes object: it succeeds and points `buffer` at the
object's bytes, which a NUL byte follows in memory. -/
def asStringAndSizeOfBytes (obj : List Byte) (_buffer : List Byte) (_length : Int) :
    AsStringAndSize :=
  { rc := 0, buffer := obj ++ [0], length := obj.length }

/-- The macro failing: it returns -1 and leaves `buffer` and `length` alone. -/
def asStringAndSizeFailing (_obj : List Byte) (buffer : List Byte) (length : Int) :
    AsStringAndSize :=
  { rc := -1, buffer := buffer, length := length }

/-- An engine stub for the bytes `set` that reports the bytes and key it got. -/
def recordSet (value : MMBuffer) (key : String) : List Byte × String :=
  (value.contents, key)

/-! ## Auxiliary facts about strings and buffers -/

theorem utf8ByteSize_eq_zero_iff (s : String) : s.utf8ByteSize = 0 ↔ s = "" := by
  cases s with
  | mk cs =>
    cases cs with
    | nil => simp [String.utf8ByteSize, String.utf8ByteSize.go]
    | cons c cs =>
      have hc := Char.utf8Size_pos c
      constructor
      · intro h0
        simp only [String.utf8ByteSize, String.utf8ByteSize.go] at h0
        omega
      · intro h0
        have hnil : (c :: cs) = [] := congrArg String.data h0
        cases hnil

theorem utf8ByteSize_pos_iff (s : String) : s.utf8ByteSize > 0 ↔ s ≠ "" := by
  rw [Ne, ← utf8ByteSize_eq_zero_iff]
  omega

theorem isEmpty_eq_true_iff (s : String) : s.isEmpty = true ↔ s = "" := by
  rw [← utf8ByteSize_eq_zero_iff]
  simp [String.isEmpty, String.endPos, String.Pos.ext_iff]

/-- The test `(s.length() > 0) ? &s : nullptr` is the absent-or-present view. -/
theorem lengthTest_eq_optionalOf (s : String) :
    (if s.utf8ByteSize > 0 then some s else none) = optionalOf s := by
  unfold optionalOf
  by_cases h : s = ""
  · subst h
    simp
    decide
  · have hp := (utf8ByteSize_pos_iff s).2 h
    simp [h, hp]

/-- The test `(!s.empty()) ? &s : nullptr` is the absent-or-present view. -/
theorem emptyTest_eq_optionalOf (s : String) :
    (if !s.isEmpty then some s else none) = optionalOf s := by
  unfold optionalOf
  by_cases h : s = ""
  · subst h
    simp
    decide
  · have hp : s.isEmpty = false := by
      cases hb : s.isEmpty with
      | false => rfl
      | true => exact absurd ((isEmpty_eq_true_iff s).1 hb) h
    simp [h, hp]

theorem py_bytes_ofBytes (v : List Byte) :
    py_bytes (MMBuffer.ofBytes v).getPtr (MMBuffer.ofBytes v).length = v := by
  simp [py_bytes, MMBuffer.ofBytes, MMBuffer.getPtr, MMBuffer.length]

theorem ofBytes_length_pos_iff (v : List Byte) : (MMBuffer.ofBytes v).length > 0 ↔ v ≠ [] := by
  cases v with
  | nil => simp [MMBuffer.ofBytes, MMBuffer.length]
  | cons b bs => simp [MMBuffer.ofBytes, MMBuffer.length]

/-- The decoder on familiar byte sequences: the empty string, ASCII with a NUL
byte, sequences of two, three and four bytes; and the strict rejections: a
byte that starts nothing, an overlong form, a surrogate, a code point beyond
U+10FFFF and a sequence cut short. -/
theorem PyUnicode_DecodeUTF8_examples :
    PyUnicode_DecodeUTF8 [] = some "" ∧
      PyUnicode_DecodeUTF8 [0x61, 0x00, 0x62] = some (String.mk ['a', Char.ofNat 0, 'b']) ∧
      PyUnicode_DecodeUTF8 [0xC3, 0xA9] = some "é" ∧
      PyUnicode_DecodeUTF8 [0xE2, 0x82, 0xAC] = some "€" ∧
      PyUnicode_DecodeUTF8 [0xF0, 0x9F, 0x98, 0x80] = some (String.mk [Char.ofNat 0x1F600]) ∧
      PyUnicode_DecodeUTF8 [0xFF] = none ∧
      PyUnicode_DecodeUTF8 [0xC0, 0x80] = none ∧
      PyUnicode_DecodeUTF8 [0xED, 0xA0, 0x80] = none ∧
      PyUnicode_DecodeUTF8 [0xF4, 0x90, 0x80, 0x80] = none ∧
      PyUnicode_DecodeUTF8 [0xE2, 0x82] = none := by
  decide

/-- Bytes below `0x80` always decode, one character a byte. -/
theorem decodeUTF8Chars_ascii (s : StdString) (hascii : ∀ b ∈ s, b.val < 0x80) :
    decodeUTF8Chars s = some (s.map (fun b => Char.ofNat b.val)) := by
  unfold decodeUTF8Chars
  induction s with
  | nil => rfl
  | cons b rest ih =>
    have hb : b.val < 0x80 := hascii b (List.mem_cons_self b rest)
    have hrest : ∀ c ∈ rest, c.val < 0x80 := fun c hc => hascii c (List.mem_cons_of_mem b hc)
    have hfirst : decodeFirst (b :: rest) = some (Char.ofNat b.val, 1) := by
      simp only [decodeFirst, hb, if_true]
    rw [decodeUTF8From, hfirst]
    simp only [Nat.sub_self, ih hrest, Option.map_some', List.map_cons]

/-- A `std::string` of bytes below `0x80` is converted to a `str` without error. -/
theorem string_caster_cast_ascii (s : StdString) (hascii : ∀ b ∈ s, b.val < 0x80) :
    string_caster_cast s = PyResult.returns (String.mk (s.map (fun b => Char.ofNat b.val))) := by
  simp only [string_caster_cast, PyUnicode_DecodeUTF8, decodeUTF8Chars_ascii s hascii,
    Option.map_some']

/-! ## The error trampoline -/

/-- C1: when the error slot `g_errorHandler` is empty, `MyErrorHandler` returns
`OnErrorDiscard` for every store name and every error type, and calls nothing
(the host world is unchanged). -/
theorem MyErrorHandler_empty_slot {W : Type} (g : Globals W)
    (hempty : g.g_errorHandler = none) (mmapID : String) (errorType : MMKVErrorType) (w : W) :
    MyErrorHandler g mmapID errorType w = (MMKVRecoverStrategic.OnErrorDiscard, w) := by
  unfold MyErrorHandler
  rw [hempty]

/-- An instance of the empty-slot rule on the initial slots, for a file-length error. -/
theorem MyErrorHandler_empty_slot_witness :
    (Globals.initial Nat).g_errorHandler = none ∧
      MyErrorHandler (Globals.initial Nat) "store" MMKVErrorType.MMKVFileLength 5
        = (MMKVRecoverStrategic.OnErrorDiscard, 5) :=
  ⟨rfl, MyErrorHandler_empty_slot (Globals.initial Nat) rfl "store"
    MMKVErrorType.MMKVFileLength 5⟩

/-- C2: after `registerErrorHandler` was called with a handler `h`, the error
slot holds `h` and `MyErrorHandler mmapID errorType` is exactly
`h mmapID errorType`: same arguments, same strategy, same effect on the host
world, whatever the engine did with the registration. -/
theorem MyErrorHandler_after_register {W E : Type}
    (MMKV_registerErrorHandler : ErrorHandlerPtr W → Globals W → E → E)
    (h : ErrorCallback W) (g : Globals W) (e : E)
    (mmapID : String) (errorType : MMKVErrorType) (w : W) :
    (registerErrorHandler MMKV_registerErrorHandler (some h) g e).1.g_errorHandler = some h ∧
      MyErrorHandler (registerErrorHandler MMKV_registerErrorHandler (some h) g e).1
        mmapID errorType w = h mmapID errorType w := by
  constructor
  · rfl
  · rfl

/-! ## Shutdown -/

/-- C3: from every state of the three handler slots, after `onExit` all three
slots are empty; hence `MyLogHandler` and `MyContentChangeHandler` leave the
host world unchanged and `MyErrorHandler` returns `OnErrorDiscard`. -/
theorem onExit_empties_all_slots {W E : Type} (MMKV_onExit : Globals W → E → E)
    (g : Globals W) (e : E) :
    (onExit MMKV_onExit g e).1.g_logHandler = none ∧
      (onExit MMKV_onExit g e).1.g_errorHandler = none ∧
      (onExit MMKV_onExit g e).1.g_contentHandler = none ∧
      (∀ (level : MMKVLogLevel) (file : String) (line : Int) (function message : String) (w : W),
        MyLogHandler (onExit MMKV_onExit g e).1 level file line function message w = w) ∧
      (∀ (mmapID : String) (w : W),
        MyContentChangeHandler (onExit MMKV_onExit g e).1 mmapID w = w) ∧
      (∀ (mmapID : String) (errorType : MMKVErrorType) (w : W),
        MyErrorHandler (onExit MMKV_onExit g e).1 mmapID errorType w
          = (MMKVRecoverStrategic.OnErrorDiscard, w)) := by
  refine ⟨rfl, rfl, rfl, ?_, ?_, ?_⟩
  · intro level file line function message w
    rfl
  · intro mmapID w
    rfl
  · intro mmapID errorType w
    rfl

/-! ## Getters -/

/-- C4 fails in its clause "it never raises": the Python-level call raises
`UnicodeDecodeError` when the engine reports success with the stored byte
`0xFF`, and also when the engine reports failure and the caller's default is
the byte `0xFF`. -/
theorem getString_raises_on_invalid_utf8 :
    (holdsString [255] [107] [] 0).1 = (true, [255]) ∧
      (getString_py (holdsString [255]) [107] none 0).1
        = PyResult.raises PyError.UnicodeDecodeError ∧
      (missingString [107] [] 0).1.1 = false ∧
      (getString_py missingString [107] (some [255]) 0).1
        = PyResult.raises PyError.UnicodeDecodeError := by
  decide

/-- C4, amended: `getString key defaultValue` calls the engine once, on the
same key and an empty `result`, and selects the engine's string when the engine
reports success and `defaultValue`, unchanged, when it reports failure; a
failure of the engine is never an error.  The Python-level call returns the
selected bytes decoded as UTF-8, so with the default omitted a miss yields the
empty string, and it raises exactly when the selected bytes are not valid
UTF-8. -/
theorem getString_success_or_default {E : Type}
    (kv_getString : StdString → StdString → E → (Bool × StdString) × E)
    (key : StdString) (defaultValue : StdString) (e : E) :
    getString kv_getString key defaultValue e
        = (if (kv_getString key [] e).1.1 = true then (kv_getString key [] e).1.2
            else defaultValue, (kv_getString key [] e).2) ∧
      getString_py kv_getString key (some defaultValue) e
        = (string_caster_cast
            (if (kv_getString key [] e).1.1 = true then (kv_getString key [] e).1.2
              else defaultValue), (kv_getString key [] e).2) ∧
      getString_py kv_getString key none e
        = (string_caster_cast
            (if (kv_getString key [] e).1.1 = true then (kv_getString key [] e).1.2
              else []), (kv_getString key [] e).2) ∧
      ((kv_getString key [] e).1.1 = false →
        (getString_py kv_getString key none e).1 = PyResult.returns "") ∧
      (∀ value : String,
        PyUnicode_DecodeUTF8 (getString kv_getString key defaultValue e).1 = some value →
        (getString_py kv_getString key (some defaultValue) e).1 = PyResult.returns value) ∧
      (PyUnicode_DecodeUTF8 (getString kv_getString key defaultValue e).1 = none →
        (getString_py kv_getString key (some defaultValue) e).1
          = PyResult.raises PyError.UnicodeDecodeError) := by
  have hsel : getString kv_getString key defaultValue e
      = (if (kv_getString key [] e).1.1 = true then (kv_getString key [] e).1.2
          else defaultValue, (kv_getString key [] e).2) := by
    by_cases hb : (kv_getString key [] e).1.1 = true <;> simp [getString, hb]
  have hnone : getString kv_getString key [] e
      = (if (kv_getString key [] e).1.1 = true then (kv_getString key [] e).1.2
          else [], (kv_getString key [] e).2) := by
    by_cases hb : (kv_getString key [] e).1.1 = true <;> simp [getString, hb]
  refine ⟨hsel, ?_, ?_, ?_, ?_, ?_⟩
  · simp only [getString_py, Option.getD_some, hsel]
  · simp only [getString_py, Option.getD_none, hnone]
  · intro hmiss
    simp only [getString_py, Option.getD_none, hnone, hmiss, Bool.false_eq_true, if_false]
    rfl
  · intro value hvalue
    simp only [getString_py, Option.getD_some, string_caster_cast, hvalue]
  · intro hinvalid
    simp only [getString_py, Option.getD_some, string_caster_cast, hinvalid]

/-- An instance of `getString` at the Python level: a stored "hi" is returned
on a hit, the default "no" on a miss, and the empty string on a miss with the
default omitted. -/
theorem getString_success_or_default_witness :
    (getString_py (holdsString [104, 105]) [107] (some [110, 111]) 0).1 = PyResult.returns "hi" ∧
      (getString_py missingString [107] (some [110, 111]) 0).1 = PyResult.returns "no" ∧
      (getString_py missingString [107] none 0).1 = PyResult.returns "" :=
  ⟨(getString_success_or_default (holdsString [104, 105]) [107] [110, 111] 0).2.2.2.2.1 "hi"
      (by decide),
    (getString_success_or_default missingString [107] [110, 111] 0).2.2.2.2.1 "no" (by decide),
    (getString_success_or_default missingString [107] [110, 111] 0).2.2.2.1 (by decide)⟩

/-- C5 fails for the empty byte sequence: the engine holds the empty value
under the key, yet `getBytes` with default `[7]` returns `[7]`. -/
theorem getBytes_empty_value_returns_default :
    (holdsBytes [] "k" 0).1 = MMBuffer.ofBytes [] ∧
      (holdsBytes [] "k" 0).1.contents = [] ∧
      (holdsBytes [] "k" 0).1.length = 0 ∧
      (getBytes (holdsBytes []) "k" [7] 0).1 = [7] ∧
      (getBytes (holdsBytes []) "k" [7] 0).1 ≠ [] := by
  decide

/-- C5, amended: if the engine's `getBytes key` returns a buffer with contents
`v` (its `length()` is the length of `v` and the first `length()` bytes at
`getPtr()` are `v`, whatever memory follows them), then
`getBytes key defaultValue` returns `v` when `v` is non-empty and
`defaultValue` when `v` is empty. -/
theorem getBytes_roundtrip_nonempty {E : Type} (kv_getBytes : String → E → MMBuffer × E)
    (key : String) (defaultValue : List Byte) (e : E) (v : List Byte)
    (hcontents : (kv_getBytes key e).1.contents = v)
    (hlength : (kv_getBytes key e).1.length = v.length) :
    (getBytes kv_getBytes key defaultValue e).1 = (if v = [] then defaultValue else v) := by
  unfold getBytes
  by_cases hv : v = []
  · subst hv
    have hzero : ¬ (kv_getBytes key e).1.length > 0 := by
      rw [hlength]
      simp
    simp [hzero]
  · have hpos : (kv_getBytes key e).1.length > 0 := by
      rw [hlength]
      exact List.length_pos.2 hv
    have hread : py_bytes (kv_getBytes key e).1.getPtr (kv_getBytes key e).1.length = v := by
      rw [← hcontents]
      rfl
    simp [hv, hpos, hread]

/-- An instance of the bytes round trip: the engine's buffer has length 3 and
more memory behind it, the value has NUL bytes, and the default is non-empty. -/
theorem getBytes_roundtrip_nonempty_witness :
    (getBytes
        (holdsBuffer
          { isNoCopy := MMBufferCopyFlag.MMBufferNoCopy, ptr := [0, 255, 0, 9, 9], size := 3 })
        "k" [7] 0).1 = (if ([0, 255, 0] : List Byte) = [] then [7] else [0, 255, 0]) ∧
      (getBytes (holdsBytes [0, 255, 0]) "k" [7] 0).1
        = (if ([0, 255, 0] : List Byte) = [] then [7] else [0, 255, 0]) :=
  ⟨getBytes_roundtrip_nonempty
      (holdsBuffer
        { isNoCopy := MMBufferCopyFlag.MMBufferNoCopy, ptr := [0, 255, 0, 9, 9], size := 3 })
      "k" [7] 0 [0, 255, 0] rfl rfl,
    getBytes_roundtrip_nonempty (holdsBytes [0, 255, 0]) "k" [7] 0 [0, 255, 0] rfl rfl⟩

/-! ## Store acquisition -/

/-- C6: the constructor and `defaultMMKV` pass `cryptKey` (and the constructor
also `rootDir`) to the engine as absent when the string is empty and as present
with the same content when it is not; `mmapID`, `mode` and `expectedCapacity`
reach the engine unchanged, and the engine's result is returned. -/
theorem init_defaultMMKV_optional_arguments {R R2 : Type}
    (MMKV_mmkvWithID : String → MMKVMode → Option String → Option MMKVPath_t → Nat → R)
    (MMKV_defaultMMKV : MMKVMode → Option String → R2)
    (mmapID : String) (mode : MMKVMode) (cryptKey : String) (rootDir : MMKVPath_t)
    (expectedCapacity : Nat) :
    init MMKV_mmkvWithID mmapID mode cryptKey rootDir expectedCapacity
        = MMKV_mmkvWithID mmapID mode (if cryptKey = "" then none else some cryptKey)
            (if rootDir = "" then none else some rootDir) expectedCapacity ∧
      defaultMMKV MMKV_defaultMMKV mode cryptKey
        = MMKV_defaultMMKV mode (if cryptKey = "" then none else some cryptKey) := by
  constructor
  · simp only [init, lengthTest_eq_optionalOf, optionalOf]
  · simp only [defaultMMKV, lengthTest_eq_optionalOf, optionalOf]

/-- C7 fails: a key of 17 bytes is handed to the engine's store acquisition as
a present key, by the constructor and by `defaultMMKV`. -/
theorem long_cryptKey_reaches_engine :
    16 < ("0123456789abcdefg" : String).utf8ByteSize ∧
      init recordMmkvWithID "store" MMKVMode.MMKV_SINGLE_PROCESS "0123456789abcdefg" "" 0
        = ("store", MMKVMode.MMKV_SINGLE_PROCESS, some "0123456789abcdefg", none, 0) ∧
      defaultMMKV recordDefaultMMKV MMKVMode.MMKV_SINGLE_PROCESS "0123456789abcdefg"
        = (MMKVMode.MMKV_SINGLE_PROCESS, some "0123456789abcdefg") := by
  decide

/-- C7, amended: the binding checks no key length; for every `cryptKey` of
more than 16 bytes the constructor and `defaultMMKV` hand the key to the
engine's store acquisition as a present key with unchanged content. -/
theorem long_cryptKey_forwarded_unchanged {R R2 : Type}
    (MMKV_mmkvWithID : String → MMKVMode → Option String → Option MMKVPath_t → Nat → R)
    (MMKV_defaultMMKV : MMKVMode → Option String → R2)
    (mmapID : String) (mode : MMKVMode) (cryptKey : String) (rootDir : MMKVPath_t)
    (expectedCapacity : Nat) (hlong : 16 < cryptKey.utf8ByteSize) :
    init MMKV_mmkvWithID mmapID mode cryptKey rootDir expectedCapacity
        = MMKV_mmkvWithID mmapID mode (some cryptKey)
            (if rootDir = "" then none else some rootDir) expectedCapacity ∧
      defaultMMKV MMKV_defaultMMKV mode cryptKey = MMKV_defaultMMKV mode (some cryptKey) := by
  have hpos : cryptKey.utf8ByteSize > 0 := by omega
  constructor
  · simp only [init, lengthTest_eq_optionalOf, optionalOf]
    simp [(utf8ByteSize_pos_iff cryptKey).1 hpos]
  · simp [defaultMMKV, hpos]

/-- An instance of key forwarding for a 17-byte key and a custom root directory. -/
theorem long_cryptKey_forwarded_unchanged_witness :
    16 < ("0123456789abcdefg" : String).utf8ByteSize ∧
      init recordMmkvWithID "store" MMKVMode.MMKV_MULTI_PROCESS "0123456789abcdefg" "/tmp/mmkv" 4096
        = recordMmkvWithID "store" MMKVMode.MMKV_MULTI_PROCESS (some "0123456789abcdefg")
            (if ("/tmp/mmkv" : String) = "" then none else some "/tmp/mmkv") 4096 ∧
      defaultMMKV recordDefaultMMKV MMKVMode.MMKV_MULTI_PROCESS "0123456789abcdefg"
        = recordDefaultMMKV MMKVMode.MMKV_MULTI_PROCESS (some "0123456789abcdefg") :=
  ⟨by decide,
    long_cryptKey_forwarded_unchanged recordMmkvWithID recordDefaultMMKV "store"
      MMKVMode.MMKV_MULTI_PROCESS "0123456789abcdefg" "/tmp/mmkv" 4096 (by decide)⟩

/-! ## Backup, restore and file probes -/

/-- C8: each of the seven static operations passes its optional directory to
the engine as absent when the path is empty (the declared default, which makes
the engine use the root dir of MMKV) and as present with the same content
otherwise, passes the other arguments unchanged and in the same order, and
returns the engine's result unchanged. -/
theorem static_ops_optional_directory {R1 R2 R3 R4 R5 R6 R7 : Type}
    (MMKV_backupOneToDirectory : String → MMKVPath_t → Option MMKVPath_t → R1)
    (MMKV_restoreOneFromDirectory : String → MMKVPath_t → Option MMKVPath_t → R2)
    (MMKV_backupAllToDirectory : MMKVPath_t → Option MMKVPath_t → R3)
    (MMKV_restoreAllFromDirectory : MMKVPath_t → Option MMKVPath_t → R4)
    (MMKV_removeStorage : String → Option MMKVPath_t → R5)
    (MMKV_isFileValid : String → Option MMKVPath_t → R6)
    (MMKV_checkExist : String → Option MMKVPath_t → R7)
    (mmapID : String) (dir : MMKVPath_t) (optDir : MMKVPath_t) :
    backupOneToDirectory MMKV_backupOneToDirectory mmapID dir optDir
        = MMKV_backupOneToDirectory mmapID dir (if optDir = "" then none else some optDir) ∧
      restoreOneFromDirectory MMKV_restoreOneFromDirectory mmapID dir optDir
        = MMKV_restoreOneFromDirectory mmapID dir (if optDir = "" then none else some optDir) ∧
      backupAllToDirectory MMKV_backupAllToDirectory dir optDir
        = MMKV_backupAllToDirectory dir (if optDir = "" then none else some optDir) ∧
      restoreAllFromDirectory MMKV_restoreAllFromDirectory dir optDir
        = MMKV_restoreAllFromDirectory dir (if optDir = "" then none else some optDir) ∧
      removeStorage MMKV_removeStorage mmapID optDir
        = MMKV_removeStorage mmapID (if optDir = "" then none else some optDir) ∧
      isFileValid MMKV_isFileValid mmapID optDir
        = MMKV_isFileValid mmapID (if optDir = "" then none else some optDir) ∧
      checkExist MMKV_checkExist mmapID optDir
        = MMKV_checkExist mmapID (if optDir = "" then none else some optDir) := by
  refine ⟨?_, ?_, ?_, ?_, ?_, ?_, ?_⟩
  · simp only [backupOneToDirectory, emptyTest_eq_optionalOf, optionalOf]
  · simp only [restoreOneFromDirectory, emptyTest_eq_optionalOf, optionalOf]
  · simp only [backupAllToDirectory, emptyTest_eq_optionalOf, optionalOf]
  · simp only [restoreAllFromDirectory, emptyTest_eq_optionalOf, optionalOf]
  · simp only [removeStorage, emptyTest_eq_optionalOf, optionalOf]
  · simp only [isFileValid, emptyTest_eq_optionalOf, optionalOf]
  · simp only [checkExist, emptyTest_eq_optionalOf, optionalOf]

/-! ## Process initialisation -/

/-- C9: `initializeMMKV rootDir logLevel logHandler` enters the engine with
exactly `rootDir` and `logLevel` in both cases; with a non-empty `logHandler`
the engine receives the trampoline `MyLogHandler` (and the log slot already
holds the handler), with an empty one it receives no handler (and the slots
are untouched). -/
theorem initializeMMKV_engine_arguments {W E : Type}
    (MMKV_initializeMMKV :
      MMKVPath_t → MMKVLogLevel → Option (LogHandlerPtr W) → Globals W → E → E)
    (rootDir : MMKVPath_t) (logLevel : MMKVLogLevel) (h : LogCallback W)
    (g : Globals W) (e : E) :
    initializeMMKV MMKV_initializeMMKV rootDir logLevel (some h) g e
        = ({ g_logHandler := some h, g_errorHandler := g.g_errorHandler,
             g_contentHandler := g.g_contentHandler },
           MMKV_initializeMMKV rootDir logLevel (some MyLogHandler)
             { g_logHandler := some h, g_errorHandler := g.g_errorHandler,
               g_contentHandler := g.g_contentHandler } e) ∧
      initializeMMKV MMKV_initializeMMKV rootDir logLevel none g e
        = (g, MMKV_initializeMMKV rootDir logLevel none g e) := by
  constructor
  · rfl
  · rfl

/-! ## Registration and unregistration -/

/-- C10: each `register...Handler` sets its own slot to the given callback (so
a later registration replaces an earlier one), each `unRegister...Handler`
empties its own slot, and in all six cases the other two slots are unchanged. -/
theorem registration_touches_own_slot_only {W E : Type}
    (MMKV_registerLogHandler : LogHandlerPtr W → Globals W → E → E)
    (MMKV_unRegisterLogHandler : Globals W → E → E)
    (MMKV_registerErrorHandler : ErrorHandlerPtr W → Globals W → E → E)
    (MMKV_unRegisterErrorHandler : Globals W → E → E)
    (MMKV_registerContentChangeHandler : ContentHandlerPtr W → Globals W → E → E)
    (MMKV_unRegisterContentChangeHandler : Globals W → E → E)
    (logCb logCb2 : Option (LogCallback W)) (errCb errCb2 : Option (ErrorCallback W))
    (contentCb contentCb2 : Option (ContentCallback W)) (g : Globals W) (e e2 : E) :
    ((registerLogHandler MMKV_registerLogHandler logCb g e).1.g_logHandler = logCb ∧
      (registerLogHandler MMKV_registerLogHandler logCb g e).1.g_errorHandler
        = g.g_errorHandler ∧
      (registerLogHandler MMKV_registerLogHandler logCb g e).1.g_contentHandler
        = g.g_contentHandler) ∧
    ((unRegisterLogHandler MMKV_unRegisterLogHandler g e).1.g_logHandler = none ∧
      (unRegisterLogHandler MMKV_unRegisterLogHandler g e).1.g_errorHandler
        = g.g_errorHandler ∧
      (unRegisterLogHandler MMKV_unRegisterLogHandler g e).1.g_contentHandler
        = g.g_contentHandler) ∧
    ((registerErrorHandler MMKV_registerErrorHandler errCb g e).1.g_errorHandler = errCb ∧
      (registerErrorHandler MMKV_registerErrorHandler errCb g e).1.g_logHandler
        = g.g_logHandler ∧
      (registerErrorHandler MMKV_registerErrorHandler errCb g e).1.g_contentHandler
        = g.g_contentHandler) ∧
    ((unRegisterErrorHandler MMKV_unRegisterErrorHandler g e).1.g_errorHandler = none ∧
      (unRegisterErrorHandler MMKV_unRegisterErrorHandler g e).1.g_logHandler
        = g.g_logHandler ∧
      (unRegisterErrorHandler MMKV_unRegisterErrorHandler g e).1.g_contentHandler
        = g.g_contentHandler) ∧
    ((registerContentChangeHandler MMKV_registerContentChangeHandler contentCb g e).1.g_contentHandler
        = contentCb ∧
      (registerContentChangeHandler MMKV_registerContentChangeHandler contentCb g e).1.g_logHandler
        = g.g_logHandler ∧
      (registerContentChangeHandler MMKV_registerContentChangeHandler contentCb g e).1.g_errorHandler
        = g.g_errorHandler) ∧
    ((unRegisterContentChangeHandler MMKV_unRegisterContentChangeHandler g e).1.g_contentHandler
        = none ∧
      (unRegisterContentChangeHandler MMKV_unRegisterContentChangeHandler g e).1.g_logHandler
        = g.g_logHandler ∧
      (unRegisterContentChangeHandler MMKV_unRegisterContentChangeHandler g e).1.g_errorHandler
        = g.g_errorHandler) ∧
    ((registerLogHandler MMKV_registerLogHandler logCb2
        (registerLogHandler MMKV_registerLogHandler logCb g e).1 e2).1.g_logHandler = logCb2 ∧
      (registerErrorHandler MMKV_registerErrorHandler errCb2
        (registerErrorHandler MMKV_registerErrorHandler errCb g e).1 e2).1.g_errorHandler
        = errCb2 ∧
      (registerContentChangeHandler MMKV_registerContentChangeHandler contentCb2
        (registerContentChangeHandler MMKV_registerContentChangeHandler contentCb g e).1
        e2).1.g_contentHandler = contentCb2) := by
  refine ⟨⟨rfl, rfl, rfl⟩, ⟨rfl, rfl, rfl⟩, ⟨rfl, rfl, rfl⟩, ⟨rfl, rfl, rfl⟩, ⟨rfl, rfl, rfl⟩,
    ⟨rfl, rfl, rfl⟩, ⟨rfl, rfl, rfl⟩⟩

/-! ## The log and content-change trampolines -/

/-- C11: with a registered log handler `h`, `MyLogHandler` is one call of `h`
on the five arguments `level file line function message`, unchanged and in that
order; with an empty log slot it does nothing.  Likewise
`MyContentChangeHandler` is one call of the registered handler on the store
name, and does nothing with an empty content slot. -/
theorem trampolines_forward_unchanged {W : Type} (h : LogCallback W) (c : ContentCallback W)
    (g : Globals W) (level : MMKVLogLevel) (file : String) (line : Int)
    (function message : String) (mmapID : String) (w : W) :
    MyLogHandler { g with g_logHandler := some h } level file line function message w
        = h level file line function message w ∧
      MyLogHandler { g with g_logHandler := none } level file line function message w = w ∧
      MyContentChangeHandler { g with g_contentHandler := some c } mmapID w = c mmapID w ∧
      MyContentChangeHandler { g with g_contentHandler := none } mmapID w = w := by
  refine ⟨?_, ?_, ?_, ?_⟩
  · simp only [MyLogHandler]
  · simp only [MyLogHandler]
  · simp only [MyContentChangeHandler]
  · simp only [MyContentChangeHandler]

/-- An instance of the trampolines on journalling handlers: each journal gets
exactly one entry, holding the arguments in the order they were passed. -/
theorem trampolines_forward_unchanged_witness :
    MyLogHandler { Globals.initial _ with g_logHandler := some journalLog }
        MMKVLogLevel.MMKVLogInfo "MMKV.cpp" 42 "initialize" "root dir: /tmp/mmkv" []
        = [(MMKVLogLevel.MMKVLogInfo, "MMKV.cpp", 42, "initialize", "root dir: /tmp/mmkv")] ∧
      MyContentChangeHandler { Globals.initial _ with g_contentHandler := some journalContent }
        "store" [] = ["store"] :=
  ⟨(trampolines_forward_unchanged journalLog (fun _ w => w) (Globals.initial _)
      MMKVLogLevel.MMKVLogInfo "MMKV.cpp" 42 "initialize" "root dir: /tmp/mmkv" "store" []).1,
    (trampolines_forward_unchanged (fun _ _ _ _ _ w => w) journalContent (Globals.initial _)
      MMKVLogLevel.MMKVLogInfo "MMKV.cpp" 42 "initialize" "root dir: /tmp/mmkv" "store" []).2.2.1⟩

/-! ## Handle equality -/

/-- C12: `a == b` holds exactly when `a.mmapID()` equals `b.mmapID()`; so
`__eq__` is reflexive, symmetric and transitive, and two stores with the same
name compare equal whatever their mode, encryption key and root directory. -/
theorem eq_iff_same_mmapID {H : Type} (MMKV_mmapID : H → String) (a b c : H)
    (name : String) (mode1 mode2 : MMKVMode) (key1 key2 : Option String)
    (root1 root2 : MMKVPath_t) :
    (__eq__ MMKV_mmapID a b = true ↔ MMKV_mmapID a = MMKV_mmapID b) ∧
      __eq__ MMKV_mmapID a a = true ∧
      __eq__ MMKV_mmapID a b = __eq__ MMKV_mmapID b a ∧
      (__eq__ MMKV_mmapID a b = true → __eq__ MMKV_mmapID b c = true →
        __eq__ MMKV_mmapID a c = true) ∧
      __eq__ Store.mmapID { name := name, mode := mode1, cryptKey := key1, rootDir := root1 }
        { name := name, mode := mode2, cryptKey := key2, rootDir := root2 } = true := by
  have hiff : ∀ x y : H, __eq__ MMKV_mmapID x y = true ↔ MMKV_mmapID x = MMKV_mmapID y := by
    intro x y
    simp [__eq__]
  refine ⟨hiff a b, (hiff a a).2 rfl, ?_, ?_, ?_⟩
  · by_cases hab : MMKV_mmapID a = MMKV_mmapID b
    · rw [(hiff a b).2 hab, (hiff b a).2 hab.symm]
    · have h1 : __eq__ MMKV_mmapID a b = false := by
        cases hv : __eq__ MMKV_mmapID a b with
        | false => rfl
        | true => exact absurd ((hiff a b).1 hv) hab
      have h2 : __eq__ MMKV_mmapID b a = false := by
        cases hv : __eq__ MMKV_mmapID b a with
        | false => rfl
        | true => exact absurd ((hiff b a).1 hv).symm hab
      rw [h1, h2]
  · intro hab hbc
    exact (hiff a c).2 (((hiff a b).1 hab).trans ((hiff b c).1 hbc))
  · simp [__eq__, Store.mmapID]

/-- An instance of handle equality: same name under two root directories, and a
chain of three handles named alike. -/
theorem eq_iff_same_mmapID_witness :
    __eq__ Store.mmapID
        { name := "store", mode := MMKVMode.MMKV_SINGLE_PROCESS, cryptKey := none,
          rootDir := "/data/a" }
        { name := "store", mode := MMKVMode.MMKV_MULTI_PROCESS, cryptKey := some "secret",
          rootDir := "/data/b" } = true ∧
      __eq__ (fun p : String × Nat => p.1) ("store", 1) ("store", 3) = true ∧
      __eq__ (fun p : String × Nat => p.1) ("store", 1) ("other", 1) = false :=
  ⟨(eq_iff_same_mmapID (fun p : String × Nat => p.1) ("store", 1) ("store", 2) ("store", 3)
      "store" MMKVMode.MMKV_SINGLE_PROCESS MMKVMode.MMKV_MULTI_PROCESS none (some "secret")
      "/data/a" "/data/b").2.2.2.2,
    (eq_iff_same_mmapID (fun p : String × Nat => p.1) ("store", 1) ("store", 2) ("store", 3)
      "store" MMKVMode.MMKV_SINGLE_PROCESS MMKVMode.MMKV_MULTI_PROCESS none (some "secret")
      "/data/a" "/data/b").2.2.2.1 (by decide) (by decide),
    by decide⟩

/-! ## Bytes values -/

/-- C13: when the extraction of pointer and size succeeds on a bytes object
holding `v`, `pyBytes2MMBuffer` returns a buffer that is marked
`MMBufferNoCopy` and sits on the very pointer the extraction yielded (no
copy), of length `v.length`, whose contents are `v` (NUL bytes included); when
it fails, the result is the empty buffer of length 0, and both bytes overloads
of `set` hand that empty buffer to the engine. -/
theorem pyBytes2MMBuffer_preserves_bytes {P R R2 : Type}
    (PYBIND11_BYTES_AS_STRING_AND_SIZE : P → List Byte → Int → AsStringAndSize)
    (kv_set : MMBuffer → String → R) (kv_set_expire : MMBuffer → String → Nat → R2)
    (bytes : P) (key : String) (expireDuration : Nat) :
    (∀ v : List Byte, v.length < 2 ^ 63 →
        (PYBIND11_BYTES_AS_STRING_AND_SIZE bytes [] 0).rc = 0 →
        (PYBIND11_BYTES_AS_STRING_AND_SIZE bytes [] 0).length = v.length →
        (PYBIND11_BYTES_AS_STRING_AND_SIZE bytes [] 0).buffer.take v.length = v →
        (pyBytes2MMBuffer PYBIND11_BYTES_AS_STRING_AND_SIZE bytes).isNoCopy
            = MMBufferCopyFlag.MMBufferNoCopy ∧
          (pyBytes2MMBuffer PYBIND11_BYTES_AS_STRING_AND_SIZE bytes).getPtr
            = (PYBIND11_BYTES_AS_STRING_AND_SIZE bytes [] 0).buffer ∧
          (pyBytes2MMBuffer PYBIND11_BYTES_AS_STRING_AND_SIZE bytes).length = v.length ∧
          (pyBytes2MMBuffer PYBIND11_BYTES_AS_STRING_AND_SIZE bytes).contents = v ∧
          set_bytes PYBIND11_BYTES_AS_STRING_AND_SIZE kv_set bytes key
            = kv_set (MMBuffer.ctor (PYBIND11_BYTES_AS_STRING_AND_SIZE bytes [] 0).buffer
                v.length MMBufferCopyFlag.MMBufferNoCopy) key ∧
          set_bytes_expire PYBIND11_BYTES_AS_STRING_AND_SIZE kv_set_expire bytes key
              expireDuration
            = kv_set_expire (MMBuffer.ctor (PYBIND11_BYTES_AS_STRING_AND_SIZE bytes [] 0).buffer
                v.length MMBufferCopyFlag.MMBufferNoCopy) key expireDuration) ∧
      ((PYBIND11_BYTES_AS_STRING_AND_SIZE bytes [] 0).rc ≠ 0 →
        pyBytes2MMBuffer PYBIND11_BYTES_AS_STRING_AND_SIZE bytes = MMBuffer.zero ∧
          (pyBytes2MMBuffer PYBIND11_BYTES_AS_STRING_AND_SIZE bytes).length = 0 ∧
          (pyBytes2MMBuffer PYBIND11_BYTES_AS_STRING_AND_SIZE bytes).contents = [] ∧
          set_bytes PYBIND11_BYTES_AS_STRING_AND_SIZE kv_set bytes key
            = kv_set MMBuffer.zero key ∧
          set_bytes_expire PYBIND11_BYTES_AS_STRING_AND_SIZE kv_set_expire bytes key
              expireDuration
            = kv_set_expire MMBuffer.zero key expireDuration) := by
  constructor
  · intro v hv hrc hlen hbuf
    have hcast : static_cast_size_t (v.length : Int) = v.length := by
      unfold static_cast_size_t
      omega
    have hres : pyBytes2MMBuffer PYBIND11_BYTES_AS_STRING_AND_SIZE bytes
        = MMBuffer.ctor (PYBIND11_BYTES_AS_STRING_AND_SIZE bytes [] 0).buffer v.length
            MMBufferCopyFlag.MMBufferNoCopy := by
      unfold pyBytes2MMBuffer
      simp only [hrc, hlen, hcast, if_true]
    refine ⟨?_, ?_, ?_, ?_, ?_, ?_⟩
    · rw [hres]
      rfl
    · rw [hres]
      rfl
    · rw [hres]
      rfl
    · rw [hres]
      exact hbuf
    · unfold set_bytes
      rw [hres]
    · unfold set_bytes_expire
      rw [hres]
  · intro hrc
    have hres : pyBytes2MMBuffer PYBIND11_BYTES_AS_STRING_AND_SIZE bytes = MMBuffer.zero := by
      unfold pyBytes2MMBuffer
      simp only [hrc, if_false]
    refine ⟨hres, ?_, ?_, ?_, ?_⟩
    · rw [hres]
      rfl
    · rw [hres]
      rfl
    · unfold set_bytes
      rw [hres]
    · unfold set_bytes_expire
      rw [hres]

/-- An instance of the bytes conversion: a value with a NUL byte in the middle
is referred to in place (no-copy flag, and the pointer still sees the NUL byte
that follows the object's bytes in memory) and stored whole; a failed
extraction stores the empty value. -/
theorem pyBytes2MMBuffer_preserves_bytes_witness :
    (pyBytes2MMBuffer asStringAndSizeOfBytes [1, 0, 2]).isNoCopy
        = MMBufferCopyFlag.MMBufferNoCopy ∧
      (pyBytes2MMBuffer asStringAndSizeOfBytes [1, 0, 2]).getPtr = [1, 0, 2, 0] ∧
      (pyBytes2MMBuffer asStringAndSizeOfBytes [1, 0, 2]).length = 3 ∧
      (pyBytes2MMBuffer asStringAndSizeOfBytes [1, 0, 2]).contents = [1, 0, 2] ∧
      (pyBytes2MMBuffer asStringAndSizeFailing [1, 0, 2]).length = 0 ∧
      set_bytes asStringAndSizeFailing recordSet [1, 0, 2] "k" = recordSet MMBuffer.zero "k" :=
  ⟨((pyBytes2MMBuffer_preserves_bytes asStringAndSizeOfBytes recordSet
        (fun _ _ _ => ()) [1, 0, 2] "k" 0).1 [1, 0, 2] (by decide) rfl rfl rfl).1,
    ((pyBytes2MMBuffer_preserves_bytes asStringAndSizeOfBytes recordSet
        (fun _ _ _ => ()) [1, 0, 2] "k" 0).1 [1, 0, 2] (by decide) rfl rfl rfl).2.1,
    ((pyBytes2MMBuffer_preserves_bytes asStringAndSizeOfBytes recordSet
        (fun _ _ _ => ()) [1, 0, 2] "k" 0).1 [1, 0, 2] (by decide) rfl rfl rfl).2.2.1,
    ((pyBytes2MMBuffer_preserves_bytes asStringAndSizeOfBytes recordSet
        (fun _ _ _ => ()) [1, 0, 2] "k" 0).1 [1, 0, 2] (by decide) rfl rfl rfl).2.2.2.1,
    ((pyBytes2MMBuffer_preserves_bytes asStringAndSizeFailing recordSet
        (fun _ _ _ => ()) [1, 0, 2] "k" 0).2 (by decide)).2.1,
    ((pyBytes2MMBuffer_preserves_bytes asStringAndSizeFailing recordSet
        (fun _ _ _ => ()) [1, 0, 2] "k" 0).2 (by decide)).2.2.2.1⟩

end MMKVPython
